import Mathlib

/-!
# Verification of the TransactionSimulator core (transaction-simulation.js)

A shallow embedding of the transaction simulation and analysis engine of the
polygonmcp repository.  JavaScript BigInt values are modelled as `Nat`/`Int`
(they are unbounded in JS as well), JS object fields that may be `undefined`
or `null` are modelled as `Option`, a rejected promise / thrown JS error is
modelled with `Except`, and every network collaborator (the ethers
`JsonRpcProvider`, ERC-20 contract bindings, event-log queries) is an oracle
record `Provider` whose methods return `Except Err _`.

Decimal rendering (`formatUnits` / `formatEther` of ethers) is implemented
below following the library's documented fixed-point formatting: pad the
fractional part to `decimals` digits, trim trailing zeros but keep at least
one fractional digit.
-/

/-- A thrown JavaScript error: a message, plus the optional `data` payload
that ethers attaches to call-revert errors. -/
structure Err where
  message : String
  data : Option String := none
deriving Repr, DecidableEq, Inhabited

/-- Result of `provider.getFeeData()`: each field may be `null`. -/
structure FeeData where
  gasPrice : Option Nat := none
  maxFeePerGas : Option Nat := none
  maxPriorityFeePerGas : Option Nat := none
deriving Repr, DecidableEq, Inhabited

/-- A transaction request object.  `none` models an absent (`undefined`)
field; JS truthiness of a present field is checked separately (`truthyN`,
`truthyS`).  The JS field `from` is a Lean keyword, hence `from_`; `to` is
a reserved token, hence `to_`. -/
structure Tx where
  from_ : Option String := none
  to_ : Option String := none
  value : Option Nat := none
  data : Option String := none
  gasLimit : Option Nat := none
  gasPrice : Option Nat := none
  maxFeePerGas : Option Nat := none
  maxPriorityFeePerGas : Option Nat := none
deriving Repr, DecidableEq, Inhabited

/-- JS truthiness of a possibly-absent string: `undefined` and `""` are falsy. -/
def truthyS : Option String → Bool
  | none => false
  | some s => s ≠ ""

/-- JS truthiness of a possibly-absent BigInt: `undefined` and `0n` are falsy. -/
def truthyN : Option Nat → Bool
  | none => false
  | some n => n ≠ 0

/-- The `gasCost` sub-object `{wei, gwei, ether}` of a simulation result. -/
structure GasCost where
  wei : String
  gwei : String
  ether : String
deriving Repr, DecidableEq, Inhabited

/-- One detected token transfer (the `type` field is named `ttype`). -/
structure TokenTransfer where
  token : String
  symbol : String
  from_ : Option String
  to_ : String
  amount : String
  rawAmount : String
  ttype : String
deriving Repr, DecidableEq, Inhabited

/-- Return value of `extractConstructorArgs`: either the empty-array result
(for missing/short bytecode) or the `{raw, decoded}` object. -/
inductive ConstructorArgs where
  | empty : ConstructorArgs
  | info (raw : String) (decoded : String) : ConstructorArgs
deriving Repr, DecidableEq, Inhabited

/-- A `contractInteractions` entry (only the `creation` variant is ever
produced by the source). -/
structure ContractInteraction where
  ctype : String
  bytecode : String
  estimatedAddress : String
  constructorArgs : ConstructorArgs
deriving Repr, DecidableEq, Inhabited

/-- The result object of `simulateTransaction`.  For `stateChanges` and
`gasCost`, `none` means the key is *absent* from the returned JS object
(as in the catch-all fallback literal at the end of `simulateTransaction`,
which lists only six keys), while `some` means the key is present with the
given value.  For `errorMessage`, the key is always present and `none`
models the JS value `null`. -/
structure SimulationResult where
  success : Bool
  gasUsed : String
  logs : List String
  tokenTransfers : List TokenTransfer
  contractInteractions : List ContractInteraction
  errorMessage : Option String
  stateChanges : Option (List String)
  gasCost : Option GasCost
deriving Repr, DecidableEq, Inhabited

/-- A transaction as returned by `provider.getTransaction`. -/
structure TxInfo where
  from_ : String
  to_ : Option String
  value : Nat
  gasPrice : Nat
deriving Repr, DecidableEq, Inhabited

/-- A receipt as returned by `provider.getTransactionReceipt`; `status` is
the 0/1 number whose JS truthiness selects Success/Failed. -/
structure Receipt where
  status : Nat
  gasUsed : Nat
  blockNumber : Nat
  logsCount : Nat
deriving Repr, DecidableEq, Inhabited

/-- The result object of `analyzeTransaction`.  Fields that are a number in
one branch and the string `"Pending"` in the other are modelled as the
string rendering of the JS value. -/
structure TransactionAnalysis where
  hash : String
  from_ : String
  to_ : String
  valueWei : String
  valueEther : String
  gasUsed : String
  gasPriceWei : String
  gasPriceGwei : String
  status : String
  blockNumber : String
  timestamp : String
  logs : Nat
  gasCost : Option GasCost
deriving Repr, DecidableEq, Inhabited

/-- The structured detail bag attached to a typed error by the factory
functions in errors.js.  The `cause` variant is what an error that carried
the underlying thrown cause in its detail payload would use; the source
never constructs it. -/
inductive ErrorDetails where
  | txHash (h : String) : ErrorDetails
  | transaction (t : Tx) : ErrorDetails
  | address (a : String) : ErrorDetails
  | cause (message : String) : ErrorDetails
deriving Repr, DecidableEq, Inhabited

/-- A typed error produced by `createTransactionError(code, message, details)`
from errors.js. -/
structure TypedError where
  code : String
  message : String
  details : ErrorDetails
deriving Repr, DecidableEq, Inhabited

/-- errors.js: `createTransactionError` builds a `TransactionError` carrying
the given code, message and details. -/
def createTransactionError (code message : String) (details : ErrorDetails) : TypedError :=
  { code := code, message := message, details := details }

/-- A block bound passed to `queryFilter`: a parsed integer or `'latest'`. -/
inductive BlockTag where
  | latest : BlockTag
  | num (n : Int) : BlockTag
deriving Repr, DecidableEq, Inhabited

/-- One entry of the `changes` array of a balance-change report. -/
structure ChangeEntry where
  token : String
  symbol : String
  change : String
  changeType : String
  fromBlock : BlockTag
  toBlock : BlockTag
  outgoing : Nat
  incoming : Nat
deriving Repr, DecidableEq, Inhabited

/-- The result object of `getTokenBalanceChanges`. -/
structure BalanceChangeReport where
  address : String
  fromBlock : BlockTag
  toBlock : BlockTag
  changes : List ChangeEntry
deriving Repr, DecidableEq, Inhabited

/-- The result object of `estimateGas`. -/
structure GasEstimateResult where
  gasEstimate : String
  gasLimit : String
  recommendedGasLimit : String
deriving Repr, DecidableEq, Inhabited

/-- The chain-RPC and ERC-20 oracle: one field per network round trip the
simulator performs.  `Except.error` models a rejected promise.  The
`tokenSymbol`/`tokenDecimals`/`queryTransferFrom`/`queryTransferTo` fields
model the ERC-20 contract binding obtained from `new Contract(addr,
ERC20_ABI, provider)`: symbol/decimals lookups keyed by token address, and
`queryFilter` on the `Transfer` event filtered by sender respectively
receiver, returning the `args.value` amount of each matching event. -/
structure Provider where
  estimateGas : Tx → Except Err Nat
  getFeeData : Except Err FeeData
  call : Tx → Nat → Except Err Unit
  getBlockNumber : Except Err Nat
  getTransactionCount : Option String → Except Err Nat
  getTransaction : String → Except Err (Option TxInfo)
  getTransactionReceipt : String → Except Err (Option Receipt)
  chainId : Nat
  tokenSymbol : String → Except Err String
  tokenDecimals : String → Except Err Nat
  queryTransferFrom : String → String → BlockTag → BlockTag → Except Err (List Nat)
  queryTransferTo : String → String → BlockTag → BlockTag → Except Err (List Nat)

/-- Modelled from the spec: the process-wide wallet manager
(common/wallet-manager.js is not under src/).  §6: "optionally-connected
per-network identity exposing isConnected(network) and getAddress(network)".
Only the 'polygon' network is ever queried, so the context is the optional
connected address. -/
structure Wallet where
  address : Option String
deriving Repr, DecidableEq, Inhabited

/-- `walletManager.isWalletConnected('polygon')`. -/
def Wallet.isWalletConnected (w : Wallet) : Bool := w.address.isSome

/- ## String / number helpers (ethers formatting and hex decoding) -/

/-- Value of one hexadecimal digit, if any. -/
def hexDigitVal (c : Char) : Option Nat :=
  if '0' ≤ c ∧ c ≤ '9' then some (c.toNat - '0'.toNat)
  else if 'a' ≤ c ∧ c ≤ 'f' then some (c.toNat - 'a'.toNat + 10)
  else if 'A' ≤ c ∧ c ≤ 'F' then some (c.toNat - 'A'.toNat + 10)
  else none

/-- Whether a character is a hexadecimal digit. -/
def isHexChar (c : Char) : Bool := (hexDigitVal c).isSome

/-- Parse a hexadecimal digit string as a `Nat` (`none` on any non-hex
character or on the empty string). -/
def hexToNat? (s : String) : Option Nat :=
  if s.isEmpty then none
  else s.toList.foldl (fun acc c => acc.bind (fun a => (hexDigitVal c).map (fun v => a * 16 + v))) (some 0)

/-- Left-pad a string with `'0'` to the given length. -/
def padZeros (s : String) (len : Nat) : String :=
  String.mk (List.replicate (len - s.length) '0') ++ s

/-- Trim trailing `'0'` characters but keep at least one character
(yielding `"0"` for an all-zero or empty string), as the ethers fixed-point
formatter does to the fractional part. -/
def trimTrailingZeros (s : String) : String :=
  let l := (s.toList.reverse.dropWhile (· = '0')).reverse
  if l.isEmpty then "0" else String.mk l

/-- ethers `formatUnits(value, decimals)`: sign, integer part, `'.'`, then
the fractional part padded to `decimals` digits with trailing zeros trimmed
(at least one digit kept).  `formatEther v = formatUnits v 18`. -/
def formatUnits (value : Int) (decimals : Nat) : String :=
  let sign := if value < 0 then "-" else ""
  let n := value.natAbs
  let m := 10 ^ decimals
  let whole := n / m
  let frac := n % m
  sign ++ toString whole ++ "." ++ trimTrailingZeros (padZeros (toString frac) decimals)

/-- Whether `pat` occurs at the head of the character list. -/
def charsBeginWith (pat l : List Char) : Bool :=
  decide (l.take pat.length = pat)

/-- Whether `pat` occurs anywhere in the character list. -/
def listHasInfix (pat : List Char) : List Char → Bool
  | [] => decide (pat = [])
  | c :: rest => charsBeginWith pat (c :: rest) || listHasInfix pat rest

/-- JS `String.prototype.startsWith`. -/
def strStartsWith (s pre : String) : Bool :=
  charsBeginWith pre.toList s.toList

/-- JS `String.prototype.includes`. -/
def strIncludes (s pat : String) : Bool :=
  listHasInfix pat.toList s.toList

/-- ethers `isAddress` (external library): `0x` followed by 40 hexadecimal
digits.  (The EIP-55 mixed-case checksum validation of the real library is
not modelled; the claims use this only as a validity gate and the concrete
addresses below are lowercase, where the two agree.) -/
def isAddress (s : String) : Bool :=
  strStartsWith s "0x" && s.length = 42 && (s.drop 2).toList.all isHexChar

/-- Modelled from the spec: `ERC20_TRANSFER_SIGNATURE` from
common/constants.js, which is not under src/.  §4.1: detection "recognizes
only the ERC-20 `transfer(address,uint256)` call signature by matching the
leading 4-byte selector of the call data"; this is that selector. -/
def ERC20_TRANSFER_SIGNATURE : String := "0xa9059cbb"

/-- The ethers `Interface.parseTransaction` step of `detectERC20Transfer`,
specialised to the `transfer(address,uint256)` fragment of `ERC20_ABI` (the
library is an external collaborator): after the 4-byte selector come two
32-byte ABI words, the recipient address (last 20 bytes of word one) and
the `uint256` amount (word two).  `none` models a decode failure (which the
source catches and turns into "no entry").  Checksum re-casing of the
decoded address is not modelled; concrete addresses below use only digit
characters, on which checksumming is the identity. -/
def parseTransferData (data : String) : Option (String × Nat) :=
  if strStartsWith data ERC20_TRANSFER_SIGNATURE then
    let rest := data.drop 10
    if rest.length = 128 && rest.toList.all isHexChar then
      match hexToNat? ((rest.drop 64).take 64) with
      | some amount => some ("0x" ++ (rest.take 64).drop 24, amount)
      | none => none
    else none
  else none

/- ## simulateTransaction -/

/-- Step 1 of `simulateTransaction` (also of `estimateGas`): clone, then
`if (!tx.from && walletManager.isWalletConnected('polygon')) tx.from =
walletManager.getAddress('polygon')`. -/
def prepareFrom (w : Wallet) (t : Tx) : Tx :=
  if ¬ truthyS t.from_ ∧ w.isWalletConnected then { t with from_ := w.address } else t

/-- Step 2 of `simulateTransaction`: if no (truthy) gas limit, estimate and
buffer by 20% (`gasEstimateBigInt * 120n / 100n`, BigInt floor division);
if estimation fails, fall back to the default `300000n` with a warning. -/
def prepareGasLimit (p : Provider) (t : Tx) : Tx :=
  if truthyN t.gasLimit then t
  else
    match p.estimateGas t with
    | .ok e => { t with gasLimit := some (e * 120 / 100) }
    | .error _ => { t with gasLimit := some 300000 }

/-- Step 3 of `simulateTransaction`: if neither `gasPrice` nor
`maxFeePerGas` is truthy, fetch fee data and populate the EIP-1559 pair
when `feeData.maxFeePerGas` is truthy, else the legacy `gasPrice`.
`BigInt(null)` on a missing companion field throws a TypeError, which the
outer catch-all absorbs. -/
def prepareFees (p : Provider) (t : Tx) : Except Err Tx :=
  if truthyN t.gasPrice ∨ truthyN t.maxFeePerGas then .ok t
  else
    match p.getFeeData with
    | .error e => .error e
    | .ok fd =>
      if truthyN fd.maxFeePerGas then
        match fd.maxPriorityFeePerGas with
        | some pr => .ok { t with maxFeePerGas := fd.maxFeePerGas, maxPriorityFeePerGas := some pr }
        | none => .error { message := "Cannot convert null to a BigInt" }
      else
        match fd.gasPrice with
        | some gp => .ok { t with gasPrice := some gp }
        | none => .error { message := "Cannot convert null to a BigInt" }

/-- The fully prepared `txToSimulate` (steps 1-3). -/
def preparedTx (p : Provider) (w : Wallet) (transaction : Tx) : Except Err Tx :=
  prepareFees p (prepareGasLimit p (prepareFrom w transaction))

/-- The speculative `eth_call` step: on success `(true, none)`; on failure
`(false, some message)` where the message is the raw error message, or is
prefixed with `"Transaction would revert: "` when the error carries a
truthy `data` payload whose string form contains `'revert'`. -/
def runCall (p : Provider) (t : Tx) (blockNumber : Nat) : Bool × Option String :=
  match p.call t blockNumber with
  | .ok _ => (true, none)
  | .error e =>
    match e.data with
    | some d =>
      if d ≠ "" ∧ strIncludes d "revert"
      then (false, some ("Transaction would revert: " ++ d))
      else (false, some e.message)
    | none => (false, some e.message)

/-- The independent gas re-estimate: on success that estimate becomes
`gasUsed`; on failure `gasUsed` falls back to the transaction's own gas
limit (`txToSimulate.gasLimit?.toString() || '0'`) and, if no error message
was recorded by the call step, the estimation failure is recorded.  The
value is carried as a `Nat`; the source stores its decimal string and later
reparses it with `BigInt`, which is the identity on these values. -/
def gasUsedPhase (p : Provider) (t : Tx) (em : Option String) : Nat × Option String :=
  match p.estimateGas t with
  | .ok e => (e, em)
  | .error err =>
    (t.gasLimit.getD 0, if em.isSome then em else some ("Gas estimation failed: " ++ err.message))

/-- `detectERC20Transfer`: decode the transfer call data; on success look up
`symbol` and `decimals` (each independently defaulting to `"Unknown"` / `18`
when the contract call fails) and produce the `TokenTransfer` entry.  A
decode failure is caught (warning logged) and produces no entry. -/
def detectERC20Transfer (p : Provider) (t : Tx) : List TokenTransfer :=
  let tokenAddress := t.to_.getD ""
  match parseTransferData (t.data.getD "") with
  | none => []
  | some (toA, amount) =>
    let symbol := match p.tokenSymbol tokenAddress with
      | .ok s => s
      | .error _ => "Unknown"
    let decimals := match p.tokenDecimals tokenAddress with
      | .ok d => d
      | .error _ => 18
    [{ token := tokenAddress, symbol := symbol, from_ := t.from_, to_ := toA,
       amount := formatUnits amount decimals, rawAmount := toString amount,
       ttype := "ERC20" }]

/-- `detectTokenTransfers`: only when `to` and `data` are truthy and the
data starts with the ERC-20 transfer selector is ERC-20 detection run. -/
def detectTokenTransfers (p : Provider) (t : Tx) : List TokenTransfer :=
  if truthyS t.to_ ∧ truthyS t.data ∧ strStartsWith (t.data.getD "") ERC20_TRANSFER_SIGNATURE
  then detectERC20Transfer p t
  else []

/-- `extractConstructorArgs`: empty result for missing/short bytecode, else
the `{raw, decoded}` heuristic slice of the last 43 characters (JS
`slice(len - 43)`, whose negative-index case starts at `max(2*len - 43, 0)`). -/
def extractConstructorArgs (bytecode : String) : ConstructorArgs :=
  if bytecode.length ≤ 2 then .empty
  else
    let start := if bytecode.length ≥ 43 then bytecode.length - 43
                 else 2 * bytecode.length - 43
    .info (bytecode.drop start) "Constructor arguments detection requires ABI"

/-- Node `Buffer.from(s, 'hex')`: decode hexadecimal digit pairs, stopping
at the first invalid pair (an odd trailing character is dropped). -/
def hexPairsDecode : List Char → List Nat
  | c1 :: c2 :: rest =>
    match hexDigitVal c1, hexDigitVal c2 with
    | some a, some b => (a * 16 + b) :: hexPairsDecode rest
    | _, _ => []
  | _ => []

/-- One byte as two lowercase hexadecimal digits. -/
def byteToHex (b : Nat) : String :=
  String.mk (Nat.toDigits 16 (b / 16)) ++ String.mk (Nat.toDigits 16 (b % 16))

/-- The heuristic would-be contract address: hex-decode the concatenation of
the decimal chain id, the lowercased sender address without `0x`, and the
nonce in hexadecimal left-padded to 64 digits, then render the last 20
bytes (`'0x' + buffer.slice(-20).toString('hex')`). -/
def estimatedCreationAddress (chainId : Nat) (sender : String) (nonce : Nat) : String :=
  let s := toString chainId ++ (sender.drop 2).toLower
             ++ padZeros (String.mk (Nat.toDigits 16 nonce)) 64
  let bytes := hexPairsDecode s.toList
  let last20 := bytes.drop (bytes.length - 20)
  "0x" ++ String.join (last20.map byteToHex)

/-- The contract-creation branch of `simulateTransaction`: when `to` is
absent and `data` present, fetch the sender's nonce and push a `creation`
interaction.  With an absent `from`, `txToSimulate.from.slice(2)` would
throw a TypeError; either way the failure escapes to the catch-all. -/
def creationPhase (p : Provider) (t : Tx) : Except Err (List ContractInteraction) :=
  if ¬ truthyS t.to_ ∧ truthyS t.data then
    match p.getTransactionCount t.from_ with
    | .error e => .error e
    | .ok nonce =>
      match t.from_ with
      | none => .error { message := "Cannot read properties of undefined (reading 'slice')" }
      | some f =>
        let creationCode := t.data.getD ""
        .ok [{ ctype := "creation",
               bytecode := if creationCode.length > 64
                           then creationCode.take 64 ++ "..."
                           else creationCode,
               estimatedAddress := estimatedCreationAddress p.chainId f nonce,
               constructorArgs := extractConstructorArgs creationCode }]
  else .ok []

/-- The gas-cost step: effective gas price is the transaction's `gasPrice`
if truthy, else `maxFeePerGas` if truthy, else `parseUnits('50', 'gwei')`
= 50000000000. -/
def gasCostOf (t : Tx) (gasUsed : Nat) : GasCost :=
  let gasPrice :=
    if truthyN t.gasPrice then t.gasPrice.getD 0
    else if truthyN t.maxFeePerGas then t.maxFeePerGas.getD 0
    else 50000000000
  let cost := gasUsed * gasPrice
  { wei := toString cost, gwei := formatUnits (cost : Int) 9,
    ether := formatUnits (cost : Int) 18 }

/-- The body of `simulateTransaction` inside the outer `try`: any
`Except.error` here is an exception reaching the catch-all. -/
def simulateTransactionE (p : Provider) (w : Wallet) (transaction : Tx) :
    Except Err SimulationResult :=
  match preparedTx p w transaction with
  | .error e => .error e
  | .ok t =>
    match p.getBlockNumber with
    | .error e => .error e
    | .ok blockNumber =>
      let sc := runCall p t blockNumber
      let gu := gasUsedPhase p t sc.2
      match creationPhase p t with
      | .error e => .error e
      | .ok interactions =>
        .ok { success := sc.1, gasUsed := toString gu.1, logs := [],
              tokenTransfers := detectTokenTransfers p t,
              contractInteractions := interactions,
              errorMessage := gu.2, stateChanges := some [],
              gasCost := some (gasCostOf t gu.1) }

/-- The object literal returned by the catch-all of `simulateTransaction`:
only six keys; `stateChanges` and `gasCost` are absent. -/
def fallbackResult (message : String) : SimulationResult :=
  { success := false, errorMessage := some message, gasUsed := "0", logs := [],
    tokenTransfers := [], contractInteractions := [], stateChanges := none,
    gasCost := none }

/-- `simulateTransaction`: the body, with the catch-all degrading any
escaped exception to the six-key fallback result. -/
def simulateTransaction (p : Provider) (w : Wallet) (transaction : Tx) :
    SimulationResult :=
  match simulateTransactionE p w transaction with
  | .ok r => r
  | .error e => fallbackResult e.message

/- ## analyzeTransaction -/

/-- The body of `analyzeTransaction` inside the `try`. -/
def analyzeTransactionE (p : Provider) (txHash : String) :
    Except Err TransactionAnalysis :=
  match p.getTransaction txHash with
  | .error e => .error e
  | .ok none => .error { message := "Transaction not found: " ++ txHash }
  | .ok (some tx) =>
    match p.getTransactionReceipt txHash with
    | .error e => .error e
    | .ok receipt =>
      .ok
        { hash := txHash
          from_ := tx.from_
          to_ := match tx.to_ with
            | some a => if a ≠ "" then a else "Contract Creation"
            | none => "Contract Creation"
          valueWei := toString tx.value
          valueEther := formatUnits (tx.value : Int) 18
          gasUsed := match receipt with
            | some r => toString r.gasUsed
            | none => "Pending"
          gasPriceWei := toString tx.gasPrice
          gasPriceGwei := formatUnits (tx.gasPrice : Int) 9
          status := match receipt with
            | some r => if r.status ≠ 0 then "Success" else "Failed"
            | none => "Pending"
          blockNumber := match receipt with
            | some r => toString r.blockNumber
            | none => "Pending"
          timestamp := "Unknown"
          logs := match receipt with
            | some r => r.logsCount
            | none => 0
          gasCost := match receipt with
            | some r => some { wei := toString (r.gasUsed * tx.gasPrice),
                               gwei := formatUnits ((r.gasUsed * tx.gasPrice : Nat) : Int) 9,
                               ether := formatUnits ((r.gasUsed * tx.gasPrice : Nat) : Int) 18 }
            | none => none }

/-- `analyzeTransaction`: any failure of the body is wrapped as
`createTransactionError(TRANSACTION_FAILED, 'Analysis failed: ...', {txHash})`. -/
def analyzeTransaction (p : Provider) (txHash : String) :
    Except TypedError TransactionAnalysis :=
  match analyzeTransactionE p txHash with
  | .ok r => .ok r
  | .error e =>
    .error (createTransactionError "TRANSACTION_FAILED"
      ("Analysis failed: " ++ e.message) (.txHash txHash))

/- ## estimateGas -/

/-- `estimateGas`: clone, fill `from` from the connected wallet, query the
network estimate, buffer by 20%; on a failed network estimate, a typed
transaction error wrapping the cause's message, with the original request
as the detail payload. -/
def estimateGas (p : Provider) (w : Wallet) (transaction : Tx) :
    Except TypedError GasEstimateResult :=
  let txToEstimate := prepareFrom w transaction
  match p.estimateGas txToEstimate with
  | .ok gasEstimate =>
    let gasLimit := gasEstimate * 120 / 100
    .ok { gasEstimate := toString gasEstimate, gasLimit := toString gasLimit,
          recommendedGasLimit := toString gasLimit }
  | .error e =>
    .error (createTransactionError "TRANSACTION_FAILED"
      ("Gas estimation failed: " ++ e.message) (.transaction transaction))

/- ## getTokenBalanceChanges -/

/-- Block-bound normalisation: `fromBlock ? parseInt(fromBlock) : 'latest'`
(a falsy bound — absent or zero — becomes `'latest'`). -/
def blockTagOf : Option Int → BlockTag
  | none => .latest
  | some n => if n = 0 then .latest else .num n

/-- The per-token body of the loop in `getTokenBalanceChanges`: decimals
lookup (defaulting to 18 on failure), the two Transfer-event queries, the
signed total (outgoing subtracted, incoming added, exact `Int` arithmetic),
and the entry when the total is nonzero.  An `Except.error` is a per-token
failure, caught by the loop's try/catch. -/
def processTokenE (p : Provider) (address : String) (fromBlock toBlock : BlockTag)
    (symbol tokenAddress : String) : Except Err (Option ChangeEntry) :=
  let decimals := match p.tokenDecimals tokenAddress with
    | .ok d => d
    | .error _ => 18
  match p.queryTransferFrom tokenAddress address fromBlock toBlock with
  | .error e => .error e
  | .ok eventsFrom =>
    match p.queryTransferTo tokenAddress address fromBlock toBlock with
    | .error e => .error e
    | .ok eventsTo =>
      let afterOutgoing : Int := eventsFrom.foldl (fun (acc : Int) (v : Nat) => acc - (v : Int)) 0
      let totalChange : Int := eventsTo.foldl (fun (acc : Int) (v : Nat) => acc + (v : Int)) afterOutgoing
      if totalChange ≠ 0 then
        .ok (some { token := tokenAddress, symbol := symbol,
                    change := formatUnits totalChange decimals,
                    changeType := if totalChange > 0 then "increase" else "decrease",
                    fromBlock := fromBlock, toBlock := toBlock,
                    outgoing := eventsFrom.length, incoming := eventsTo.length })
      else
        .ok none

/-- `getTokenBalanceChanges`: address validation, block-bound
normalisation, then the per-token loop over the configured registry
(`Object.entries(this.tokenAddresses)`), each iteration catching its own
failures (warning logged, token omitted). -/
def getTokenBalanceChanges (tokenAddresses : List (String × String)) (p : Provider)
    (address : String) (fromBlock toBlock : Option Int) :
    Except TypedError BalanceChangeReport :=
  if address = "" ∨ ¬ isAddress address then
    .error (createTransactionError "INVALID_ADDRESS" "Invalid address provided"
      (.address address))
  else
    let fb := blockTagOf fromBlock
    let tb := blockTagOf toBlock
    let changes := tokenAddresses.foldl
      (fun acc st =>
        match processTokenE p address fb tb st.1 st.2 with
        | .ok (some e) => acc ++ [e]
        | .ok none => acc
        | .error _ => acc) []
    .ok { address := address, fromBlock := fb, toBlock := tb, changes := changes }

/- ## Object-identity model for the defensive-copy discipline

`simulateTransaction` and `estimateGas` mutate the transaction object they
work on (filling `from`, `gasLimit` and the fee fields); both start from a
spread copy `{ ...transaction }`.  To state that the caller's object is
never mutated, the fill-in phases are replayed on an explicit heap of
transaction objects addressed by references; every later step of both
operations only reads the prepared object (the pure definitions above), so
these phases contain every write of the whole call. -/

abbrev Ref := Nat

abbrev Heap := List Tx

/-- Dereference (a dangling reference yields the default object; the
operations below never follow one). -/
def readRef (h : Heap) (r : Ref) : Tx := h[r]?.getD default

/-- In-place field update through a reference. -/
def writeRef (h : Heap) (r : Ref) (t : Tx) : Heap := h.set r t

/-- `{ ...transaction }`: allocate a fresh object with the same fields. -/
def spreadClone (h : Heap) (r : Ref) : Heap × Ref := (h ++ [readRef h r], h.length)

/-- Steps 1-3 of `simulateTransaction` replayed on the heap: clone the
request, then assign `from`, `gasLimit` and the fee fields on the clone,
stopping at the statement whose awaited call (or `BigInt(null)` conversion)
throws.  Returns the heap after the last executed statement, the clone's
reference, and the escaped exception if any. -/
def simulatePrepareH (p : Provider) (w : Wallet) (h : Heap) (r : Ref) :
    Heap × Ref × Option Err :=
  let hr1 := spreadClone h r
  let h1 := hr1.1
  let rc := hr1.2
  let h2 := if ¬ truthyS (readRef h1 rc).from_ ∧ w.isWalletConnected
            then writeRef h1 rc { readRef h1 rc with from_ := w.address }
            else h1
  let h3 :=
    if truthyN (readRef h2 rc).gasLimit then h2
    else
      match p.estimateGas (readRef h2 rc) with
      | .ok e => writeRef h2 rc { readRef h2 rc with gasLimit := some (e * 120 / 100) }
      | .error _ => writeRef h2 rc { readRef h2 rc with gasLimit := some 300000 }
  if truthyN (readRef h3 rc).gasPrice ∨ truthyN (readRef h3 rc).maxFeePerGas then
    (h3, rc, none)
  else
    match p.getFeeData with
    | .error e => (h3, rc, some e)
    | .ok fd =>
      if truthyN fd.maxFeePerGas then
        let h4 := writeRef h3 rc { readRef h3 rc with maxFeePerGas := fd.maxFeePerGas }
        match fd.maxPriorityFeePerGas with
        | some pr =>
          (writeRef h4 rc { readRef h4 rc with maxPriorityFeePerGas := some pr }, rc, none)
        | none => (h4, rc, some { message := "Cannot convert null to a BigInt" })
      else
        match fd.gasPrice with
        | some gp => (writeRef h3 rc { readRef h3 rc with gasPrice := some gp }, rc, none)
        | none => (h3, rc, some { message := "Cannot convert null to a BigInt" })

/-- The fill-in prefix of `estimateGas` on the heap: clone, then assign
`from` on the clone when absent. -/
def estimateGasPrepH (w : Wallet) (h : Heap) (r : Ref) : Heap × Ref :=
  let hr1 := spreadClone h r
  let h1 := hr1.1
  let rc := hr1.2
  if ¬ truthyS (readRef h1 rc).from_ ∧ w.isWalletConnected
  then (writeRef h1 rc { readRef h1 rc with from_ := w.address }, rc)
  else (h1, rc)

theorem readRef_append_lt {h : Heap} {t : Tx} {r : Ref} (hr : r < h.length) :
    readRef (h ++ [t]) r = readRef h r := by
  unfold readRef
  rw [List.getElem?_append]
  simp [hr]

theorem readRef_writeRef_ne {h : Heap} {i r : Ref} {t : Tx} (hne : r ≠ i) :
    readRef (writeRef h i t) r = readRef h r := by
  unfold readRef writeRef
  rw [List.getElem?_set_ne hne.symm]

/- ## Concrete instances used by witnesses and counterexamples -/

/-- A digit-only address (EIP-55 checksumming is the identity on it). -/
def addrA : String := "0x1111111111111111111111111111111111111111"

/-- A second digit-only address. -/
def addrB : String := "0x2222222222222222222222222222222222222222"

/-- A digit-only token-contract address. -/
def tokenAddrC : String := "0x3333333333333333333333333333333333333333"

/-- A well-behaved oracle: every estimate is 21000, the speculative call
succeeds exactly when the supplied gas limit (if any) covers 21000, legacy
fee data, no pending transactions, a TEST token with 18 decimals, and no
transfer events. -/
def baseProvider : Provider :=
  { estimateGas := fun _ => .ok 21000
    getFeeData := .ok { gasPrice := some 30000000000 }
    call := fun t _ =>
      match t.gasLimit with
      | some g => if 21000 ≤ g then .ok () else .error { message := "out of gas" }
      | none => .ok ()
    getBlockNumber := .ok 1000
    getTransactionCount := fun _ => .ok 7
    getTransaction := fun _ => .ok none
    getTransactionReceipt := fun _ => .ok none
    chainId := 137
    tokenSymbol := fun _ => .ok "TEST"
    tokenDecimals := fun _ => .ok 18
    queryTransferFrom := fun _ _ _ _ => .ok []
    queryTransferTo := fun _ _ _ _ => .ok [] }

/-- A disconnected wallet context. -/
def noWallet : Wallet := { address := none }

/- ## Theorems -/

/-- C9: neither `simulateTransaction` nor `estimateGas` mutates the
caller's request object: every fill-in (the `from` address, the estimated
gas limit, the gas/fee fields) is written to the spread copy, so any
pre-existing object on the heap — in particular the caller's — reads the
same before and after the fill-in phases, which contain every write the
two operations perform (all later steps are the pure read-only functions
above). -/
theorem request_object_never_mutated (p : Provider) (w : Wallet) (h : Heap) (r : Ref)
    (hr : r < h.length) :
    readRef (simulatePrepareH p w h r).1 r = readRef h r ∧
    readRef (estimateGasPrepH w h r).1 r = readRef h r := by
  have hne : r ≠ h.length := Nat.ne_of_lt hr
  constructor
  · simp only [simulatePrepareH, spreadClone]
    repeat' split
    all_goals simp only [readRef_writeRef_ne hne, readRef_append_lt hr]
  · simp only [estimateGasPrepH, spreadClone]
    repeat' split
    all_goals simp only [readRef_writeRef_ne hne, readRef_append_lt hr]

/-- A concrete request with no `from`, no gas fields. -/
def txW : Tx := { to_ := some addrB, value := some 1000 }

theorem request_object_never_mutated_witness :
    (0 : Nat) < [txW].length ∧
    readRef (simulatePrepareH baseProvider noWallet [txW] 0).1 0 = readRef [txW] 0 ∧
    readRef (estimateGasPrepH noWallet [txW] 0).1 0 = readRef [txW] 0 :=
  ⟨by decide,
   (request_object_never_mutated baseProvider noWallet [txW] 0 (by decide)).1,
   (request_object_never_mutated baseProvider noWallet [txW] 0 (by decide)).2⟩

/-- C2: gas buffering is exactly `floor(E * 120 / 100)`.  When the request
carries no truthy `gasLimit` and the network estimate is `E`, the
simulation's filled-in limit is `E * 120 / 100` in `Nat` (floor) division;
a truthy user-supplied limit passes through with no buffering;
`estimateGas` returns the same buffered value (as `gasLimit` and
`recommendedGasLimit`); and `Nat` division agrees with the rational floor,
not with rounding to nearest. -/
theorem gas_buffer_exact_floor (p : Provider) (w : Wallet) (tx : Tx) (E : Nat) :
    (¬ truthyN tx.gasLimit → p.estimateGas (prepareFrom w tx) = .ok E →
      (prepareGasLimit p (prepareFrom w tx)).gasLimit = some (E * 120 / 100)) ∧
    (∀ g, tx.gasLimit = some g → g ≠ 0 →
      (prepareGasLimit p (prepareFrom w tx)).gasLimit = some g) ∧
    (p.estimateGas (prepareFrom w tx) = .ok E →
      estimateGas p w tx = .ok { gasEstimate := toString E,
                                 gasLimit := toString (E * 120 / 100),
                                 recommendedGasLimit := toString (E * 120 / 100) }) ∧
    E * 120 / 100 = Nat.floor ((E * 120 : ℚ) / 100) := by
  have hfl : (prepareFrom w tx).gasLimit = tx.gasLimit := by
    unfold prepareFrom; split <;> rfl
  refine ⟨?_, ?_, ?_, ?_⟩
  · intro hno hE
    have hfalse : truthyN tx.gasLimit = false := by
      revert hno; cases truthyN tx.gasLimit <;> simp
    simp [prepareGasLimit, hfl, hfalse, hE]
  · intro g hg hgne
    simp [prepareGasLimit, hfl, hg, truthyN, hgne]
  · intro hE
    simp [estimateGas, hE]
  · have hc : ((E * 120 : ℚ) / 100) = ((E * 120 : ℕ) : ℚ) / ((100 : ℕ) : ℚ) := by
      push_cast; ring
    rw [hc, Nat.floor_div_nat, Nat.floor_natCast]

/-- A concrete request with no gas limit. -/
def txNoGas : Tx := { to_ := some addrB, value := some 5 }

theorem gas_buffer_exact_floor_witness :
    (¬ truthyN txNoGas.gasLimit) ∧
    (prepareGasLimit baseProvider (prepareFrom noWallet txNoGas)).gasLimit = some 25200 :=
  ⟨by decide, (gas_buffer_exact_floor baseProvider noWallet txNoGas 21000).1 (by decide) rfl⟩

/-- An oracle whose gas estimate is the tiny value 4. -/
def lowEstimateProvider : Provider := { baseProvider with estimateGas := fun _ => .ok 4 }

/-- C10 counterexample: with a network estimate of 4 the 20% buffer floors
back to 4 (`4 * 120 / 100 = 4`), so the returned `gasLimit` string equals
the raw `gasEstimate` string — "gasLimit is never the raw unbuffered
network estimate" fails as stated. -/
theorem estimateGas_gasLimit_can_equal_raw_estimate :
    estimateGas lowEstimateProvider noWallet { to_ := some addrB } =
      .ok { gasEstimate := "4", gasLimit := "4", recommendedGasLimit := "4" } := rfl

/-- C10 amended: whenever `estimateGas` succeeds with network estimate `E`,
its `gasLimit` and `recommendedGasLimit` are the identical decimal string
of the buffered value `floor(E * 120 / 100)` and `gasEstimate` carries the
raw value; the buffered value exceeds the raw estimate whenever `E ≥ 5`
(for `E ≤ 4` flooring makes them coincide). -/
theorem estimateGas_gasLimit_eq_recommended (p : Provider) (w : Wallet) (tx : Tx) (E : Nat)
    (hE : p.estimateGas (prepareFrom w tx) = .ok E) :
    estimateGas p w tx = .ok { gasEstimate := toString E,
                               gasLimit := toString (E * 120 / 100),
                               recommendedGasLimit := toString (E * 120 / 100) } ∧
    (5 ≤ E → E < E * 120 / 100) := by
  constructor
  · simp [estimateGas, hE]
  · intro h5
    have h1 : E + 1 ≤ E * 120 / 100 := by
      rw [Nat.le_div_iff_mul_le (by norm_num)]
      nlinarith
    omega

theorem estimateGas_gasLimit_eq_recommended_witness :
    estimateGas baseProvider noWallet txNoGas =
      .ok { gasEstimate := "21000", gasLimit := "25200", recommendedGasLimit := "25200" } ∧
    (21000 : Nat) < 25200 := by
  have h := estimateGas_gasLimit_eq_recommended baseProvider noWallet txNoGas 21000 rfl
  exact ⟨h.1, h.2 (by norm_num)⟩

/-- An oracle whose gas estimate call always rejects. -/
def failingEstimateProvider : Provider :=
  { baseProvider with estimateGas := fun _ => .error { message := "boom" } }

/-- C5 counterexample: when the network estimate call throws, the typed
error's detail payload is the original request object, not any wrapper of
the underlying cause; the cause's text appears only in the message. -/
theorem estimateGas_details_not_cause :
    estimateGas failingEstimateProvider noWallet { to_ := some addrB } =
      .error { code := "TRANSACTION_FAILED",
               message := "Gas estimation failed: boom",
               details := .transaction { to_ := some addrB } } ∧
    ErrorDetails.transaction { to_ := some addrB } ≠ ErrorDetails.cause "boom" := by
  refine ⟨rfl, fun h => ?_⟩
  cases h

/-- C5 amended: when the underlying network estimate call throws,
`estimateGas` fails with a typed transaction error whose message wraps the
cause's message (`'Gas estimation failed: ' + cause`) and whose detail
payload is the offending request object; it never silently returns a
default or fallback value. -/
theorem estimateGas_estimation_failure_is_hard_error (p : Provider) (w : Wallet) (tx : Tx)
    (e : Err) (he : p.estimateGas (prepareFrom w tx) = .error e) :
    estimateGas p w tx = .error (createTransactionError "TRANSACTION_FAILED"
      ("Gas estimation failed: " ++ e.message) (.transaction tx)) := by
  simp [estimateGas, he]

theorem estimateGas_estimation_failure_is_hard_error_witness :
    estimateGas failingEstimateProvider noWallet txNoGas =
      .error (createTransactionError "TRANSACTION_FAILED"
        "Gas estimation failed: boom" (.transaction txNoGas)) :=
  estimateGas_estimation_failure_is_hard_error failingEstimateProvider noWallet
    txNoGas { message := "boom" } rfl

/-- The completed re-estimate keeps an already-recorded error message. -/
theorem gasUsedPhase_preserves_some (p : Provider) (t : Tx) (m : String) :
    ((gasUsedPhase p t (some m)).2).isSome := by
  unfold gasUsedPhase
  cases p.estimateGas t <;> simp

/-- A failed speculative call yields `success=false` with some message. -/
theorem runCall_error (p : Provider) (t : Tx) (bn : Nat) (ce : Err)
    (h : p.call t bn = .error ce) :
    (runCall p t bn).1 = false ∧ ∃ m, (runCall p t bn).2 = some m := by
  unfold runCall
  simp only [h]
  cases hd : ce.data with
  | none => simp
  | some d =>
    simp only
    split
    · exact ⟨rfl, _, rfl⟩
    · exact ⟨rfl, _, rfl⟩

/-- Every non-fallback simulation result comes from a prepared transaction,
a fetched block number and a completed creation phase, and is exactly the
record built from the call, re-estimate, detection and gas-cost steps. -/
theorem simulateTransactionE_ok_shape (p : Provider) (w : Wallet) (tx : Tx)
    (r : SimulationResult) (h : simulateTransactionE p w tx = .ok r) :
    ∃ t bn i, preparedTx p w tx = .ok t ∧ p.getBlockNumber = .ok bn ∧
      creationPhase p t = .ok i ∧
      r = { success := (runCall p t bn).1,
            gasUsed := toString (gasUsedPhase p t (runCall p t bn).2).1,
            logs := [],
            tokenTransfers := detectTokenTransfers p t,
            contractInteractions := i,
            errorMessage := (gasUsedPhase p t (runCall p t bn).2).2,
            stateChanges := some [],
            gasCost := some (gasCostOf t (gasUsedPhase p t (runCall p t bn).2).1) } := by
  unfold simulateTransactionE at h
  cases h1 : preparedTx p w tx with
  | error e => simp only [h1] at h; exact Except.noConfusion h
  | ok t =>
    simp only [h1] at h
    cases h2 : p.getBlockNumber with
    | error e => simp only [h2] at h; exact Except.noConfusion h
    | ok bn =>
      simp only [h2] at h
      cases h3 : creationPhase p t with
      | error e => simp only [h3] at h; exact Except.noConfusion h
      | ok i =>
        simp only [h3, Except.ok.injEq] at h
        subst h
        exact ⟨t, bn, i, rfl, rfl, h3, rfl⟩

/-- A successful speculative call yields `success=true`, no message. -/
theorem runCall_ok (p : Provider) (t : Tx) (bn : Nat) (h : p.call t bn = .ok ()) :
    runCall p t bn = (true, none) := by
  unfold runCall
  simp [h]

/-- An oracle whose fee-data fetch rejects. -/
def feeDataFailingProvider : Provider :=
  { baseProvider with getFeeData := .error { message := "network unreachable" } }

/-- A request with a gas limit but no fee fields (so the fee-data round
trip is reached). -/
def txGasOnly : Tx := { to_ := some addrB, gasLimit := some 21000 }

/-- C1 counterexample: a fee-data fetch failure escapes to the catch-all,
whose fallback object has `success=false` and a populated `errorMessage`
but lacks the `stateChanges` and `gasCost` keys of the data model, so the
result is not structurally complete as claimed. -/
theorem simulateTransaction_fallback_missing_fields :
    simulateTransaction feeDataFailingProvider noWallet txGasOnly =
      { success := false, errorMessage := some "network unreachable", gasUsed := "0",
        logs := [], tokenTransfers := [], contractInteractions := [],
        stateChanges := none, gasCost := none } := rfl

/-- C1 amended: `simulateTransaction` never throws, and a failing result
always carries an error message.  An ordinary on-chain failure of the
speculative call (with every other pipeline step completing) yields a
structurally complete result — all data-model fields present (in
particular `stateChanges` and `gasCost`), `success=false`, non-null
`errorMessage` — while an otherwise-unhandled exception yields the failed
fallback result carrying only the six keys of the fallback literal
(`stateChanges` and `gasCost` omitted). -/
theorem simulateTransaction_error_contract (p : Provider) (w : Wallet) (tx : Tx) :
    ((simulateTransaction p w tx).success = false →
      ((simulateTransaction p w tx).errorMessage).isSome) ∧
    (∀ e, simulateTransactionE p w tx = .error e →
      simulateTransaction p w tx = fallbackResult e.message) ∧
    (∀ t bn ce, preparedTx p w tx = .ok t → p.getBlockNumber = .ok bn →
      p.call t bn = .error ce → (∃ i, creationPhase p t = .ok i) →
      (simulateTransaction p w tx).success = false ∧
      ((simulateTransaction p w tx).errorMessage).isSome ∧
      (simulateTransaction p w tx).stateChanges = some [] ∧
      ((simulateTransaction p w tx).gasCost).isSome) := by
  refine ⟨?_, ?_, ?_⟩
  · intro hs
    cases hE : simulateTransactionE p w tx with
    | error e =>
      unfold simulateTransaction
      rw [hE]
      simp [fallbackResult]
    | ok r =>
      obtain ⟨t, bn, i, h1, h2, h5, hr⟩ := simulateTransactionE_ok_shape p w tx r hE
      unfold simulateTransaction at hs ⊢
      rw [hE] at hs ⊢
      subst hr
      have hs' : (runCall p t bn).1 = false := hs
      show ((gasUsedPhase p t (runCall p t bn).2).2).isSome
      cases hc : p.call t bn with
      | ok u =>
        exfalso
        cases u
        rw [runCall_ok p t bn hc] at hs'
        simp at hs'
      | error ce =>
        obtain ⟨_, m, hm⟩ := runCall_error p t bn ce hc
        rw [hm]
        exact gasUsedPhase_preserves_some p t m
  · intro e he
    unfold simulateTransaction
    rw [he]
  · intro t bn ce h1 h2 h3 h4
    obtain ⟨i, h5⟩ := h4
    obtain ⟨hsf, m, hsm⟩ := runCall_error p t bn ce h3
    have hE : simulateTransactionE p w tx =
        .ok { success := (runCall p t bn).1,
              gasUsed := toString (gasUsedPhase p t (runCall p t bn).2).1,
              logs := [],
              tokenTransfers := detectTokenTransfers p t,
              contractInteractions := i,
              errorMessage := (gasUsedPhase p t (runCall p t bn).2).2,
              stateChanges := some [],
              gasCost := some (gasCostOf t (gasUsedPhase p t (runCall p t bn).2).1) } := by
      unfold simulateTransactionE
      simp only [h1, h2, h5]
    unfold simulateTransaction
    rw [hE]
    refine ⟨hsf, ?_, rfl, rfl⟩
    show ((gasUsedPhase p t (runCall p t bn).2).2).isSome
    rw [hsm]
    exact gasUsedPhase_preserves_some p t m

/-- An oracle whose speculative call rejects with revert data. -/
def failCallProvider : Provider :=
  { baseProvider with
    call := fun _ _ => .error { message := "execution reverted",
                                data := some "execution reverted" } }

/-- `txNoGas` after the fill-in phases against `baseProvider` (and against
`failCallProvider`, which shares every fill-in oracle). -/
def tPrepW : Tx :=
  { to_ := some addrB, value := some 5, gasLimit := some 25200,
    gasPrice := some 30000000000 }

theorem simulateTransaction_error_contract_witness :
    ((simulateTransaction failCallProvider noWallet txNoGas).success = false ∧
     ((simulateTransaction failCallProvider noWallet txNoGas).errorMessage).isSome ∧
     (simulateTransaction failCallProvider noWallet txNoGas).stateChanges = some [] ∧
     ((simulateTransaction failCallProvider noWallet txNoGas).gasCost).isSome) ∧
    simulateTransaction feeDataFailingProvider noWallet txGasOnly =
      fallbackResult "network unreachable" :=
  ⟨(simulateTransaction_error_contract failCallProvider noWallet txNoGas).2.2
      tPrepW 1000 { message := "execution reverted", data := some "execution reverted" }
      rfl rfl rfl ⟨[], rfl⟩,
   (simulateTransaction_error_contract feeDataFailingProvider noWallet txGasOnly).2.1
      { message := "network unreachable" } rfl⟩

/-- A settled transaction's details as used by the analysis fixtures. -/
def txInfoW : TxInfo :=
  { from_ := addrA, to_ := some addrB, value := 1000, gasPrice := 30000000000 }

/-- An oracle that resolves the hash but whose receipt fetch rejects. -/
def receiptFailProvider : Provider :=
  { baseProvider with
    getTransaction := fun _ => .ok (some txInfoW)
    getTransactionReceipt := fun _ => .error { message := "rpc down" } }

/-- C6 counterexample: the hash resolves to a known transaction, yet
`analyzeTransaction` still fails with the typed analysis error because the
receipt fetch rejected — so the operation does not fail *exactly* when the
hash cannot be resolved. -/
theorem analyzeTransaction_fails_despite_resolved_hash :
    receiptFailProvider.getTransaction "0xhash" = .ok (some txInfoW) ∧
    analyzeTransaction receiptFailProvider "0xhash" =
      .error (createTransactionError "TRANSACTION_FAILED"
        "Analysis failed: rpc down" (.txHash "0xhash")) := ⟨rfl, rfl⟩

/-- C6 amended: when the hash resolves and the receipt fetch succeeds with
no mined receipt, `analyzeTransaction` does not throw and returns
`status="Pending"` with every receipt-dependent field (`gasUsed`,
`blockNumber`) degraded to the Pending marker and no `gasCost`; when the
hash resolves to no known transaction it fails with the typed
`TRANSACTION_FAILED` analysis error (as it also does when any underlying
fetch rejects, which the catch wraps in the same error). -/
theorem analyzeTransaction_pending_and_not_found (p : Provider) (h : String) :
    (∀ tx, p.getTransaction h = .ok (some tx) →
      p.getTransactionReceipt h = .ok none →
      ∃ r, analyzeTransaction p h = .ok r ∧ r.status = "Pending" ∧
        r.gasUsed = "Pending" ∧ r.blockNumber = "Pending" ∧ r.gasCost = none) ∧
    (p.getTransaction h = .ok none →
      analyzeTransaction p h = .error (createTransactionError "TRANSACTION_FAILED"
        ("Analysis failed: " ++ ("Transaction not found: " ++ h)) (.txHash h))) := by
  constructor
  · intro tx htx hrc
    unfold analyzeTransaction analyzeTransactionE
    simp only [htx, hrc]
    exact ⟨_, rfl, rfl, rfl, rfl, rfl⟩
  · intro htx
    unfold analyzeTransaction analyzeTransactionE
    simp only [htx]

/-- An oracle with a resolvable but not yet mined transaction. -/
def pendingTxProvider : Provider :=
  { baseProvider with getTransaction := fun _ => .ok (some txInfoW) }

theorem analyzeTransaction_pending_and_not_found_witness :
    (∃ r, analyzeTransaction pendingTxProvider "0xhash" = .ok r ∧ r.status = "Pending" ∧
      r.gasUsed = "Pending" ∧ r.blockNumber = "Pending" ∧ r.gasCost = none) ∧
    analyzeTransaction baseProvider "0xmissing" =
      .error (createTransactionError "TRANSACTION_FAILED"
        "Analysis failed: Transaction not found: 0xmissing" (.txHash "0xmissing")) :=
  ⟨(analyzeTransaction_pending_and_not_found pendingTxProvider "0xhash").1 txInfoW rfl rfl,
   (analyzeTransaction_pending_and_not_found baseProvider "0xmissing").2 rfl⟩

/-- A successful transfer decode implies the selector match and nonempty data. -/
theorem parseTransferData_startsWith {data recipient : String} {amount : Nat}
    (h : parseTransferData data = some (recipient, amount)) :
    strStartsWith data ERC20_TRANSFER_SIGNATURE = true ∧ data ≠ "" := by
  by_cases hsw : strStartsWith data ERC20_TRANSFER_SIGNATURE = true
  · refine ⟨hsw, ?_⟩
    intro h0
    rw [h0] at hsw
    exact absurd hsw (by decide)
  · unfold parseTransferData at h
    simp [hsw] at h

/-- The `from` fill-in touches no other field, and not a truthy `from`. -/
theorem prepareFrom_fields (w : Wallet) (t : Tx) :
    (prepareFrom w t).to_ = t.to_ ∧ (prepareFrom w t).data = t.data ∧
    (truthyS t.from_ = true → (prepareFrom w t).from_ = t.from_) ∧
    (prepareFrom w t).gasLimit = t.gasLimit := by
  unfold prepareFrom
  split
  · rename_i hc
    exact ⟨rfl, rfl, fun ht => absurd ht hc.1, rfl⟩
  · exact ⟨rfl, rfl, fun _ => rfl, rfl⟩

/-- The gas-limit fill-in touches only `gasLimit`. -/
theorem prepareGasLimit_fields (p : Provider) (t : Tx) :
    (prepareGasLimit p t).to_ = t.to_ ∧ (prepareGasLimit p t).data = t.data ∧
    (prepareGasLimit p t).from_ = t.from_ := by
  unfold prepareGasLimit
  split
  · exact ⟨rfl, rfl, rfl⟩
  · split <;> exact ⟨rfl, rfl, rfl⟩

/-- The fee fill-in touches only the fee fields. -/
theorem prepareFees_fields (p : Provider) (u t : Tx) (h : prepareFees p u = .ok t) :
    t.to_ = u.to_ ∧ t.data = u.data ∧ t.from_ = u.from_ ∧ t.gasLimit = u.gasLimit := by
  unfold prepareFees at h
  split at h
  · injection h with h; subst h; exact ⟨rfl, rfl, rfl, rfl⟩
  · split at h
    · exact Except.noConfusion h
    · split at h
      · split at h
        · injection h with h; subst h; exact ⟨rfl, rfl, rfl, rfl⟩
        · exact Except.noConfusion h
      · split at h
        · injection h with h; subst h; exact ⟨rfl, rfl, rfl, rfl⟩
        · exact Except.noConfusion h

/-- The prepared transaction keeps the request's `to`, `data` and (when
truthy) `from`. -/
theorem preparedTx_fields (p : Provider) (w : Wallet) (tx t : Tx)
    (h : preparedTx p w tx = .ok t) :
    t.to_ = tx.to_ ∧ t.data = tx.data ∧
    (truthyS tx.from_ = true → t.from_ = tx.from_) := by
  unfold preparedTx at h
  obtain ⟨h1, h2, h3, _⟩ := prepareFees_fields p _ t h
  obtain ⟨g1, g2, g3⟩ := prepareGasLimit_fields p (prepareFrom w tx)
  obtain ⟨f1, f2, f3, _⟩ := prepareFrom_fields w tx
  exact ⟨by rw [h1, g1, f1], by rw [h2, g2, f2], fun ht => by rw [h3, g3, f3 ht]⟩

/-- Detection of a well-formed ERC-20 transfer call: one entry, built from
the decoded recipient/amount and the token's symbol/decimals lookups. -/
theorem detectTokenTransfers_erc20 (p : Provider) (t : Tx) (tokA data recipient : String)
    (amount : Nat) (sym : String) (dec : Nat)
    (hto : t.to_ = some tokA) (htokA : tokA ≠ "") (hdata : t.data = some data)
    (hdec : parseTransferData data = some (recipient, amount))
    (hsym : p.tokenSymbol tokA = .ok sym) (hdecs : p.tokenDecimals tokA = .ok dec) :
    detectTokenTransfers p t =
      [{ token := tokA, symbol := sym, from_ := t.from_, to_ := recipient,
         amount := formatUnits (amount : Int) dec, rawAmount := toString amount,
         ttype := "ERC20" }] := by
  obtain ⟨hsw, hne⟩ := parseTransferData_startsWith hdec
  unfold detectTokenTransfers
  rw [if_pos]
  · unfold detectERC20Transfer
    rw [hto, hdata]
    simp only [Option.getD_some, hdec, hsym, hdecs]
  · rw [hto, hdata]
    exact ⟨by simp [truthyS, htokA], by simp [truthyS, hne], by simpa using hsw⟩

/-- Call data not starting with the transfer selector produces no entry. -/
theorem detectTokenTransfers_no_selector (p : Provider) (t : Tx)
    (hns : ∀ d, t.data = some d → strStartsWith d ERC20_TRANSFER_SIGNATURE = false) :
    detectTokenTransfers p t = [] := by
  unfold detectTokenTransfers
  cases hd : t.data with
  | none => simp [hd, truthyS]
  | some d => simp [hd, truthyS, hns d hd]

/-- C7: simulating a transaction whose data decodes as
`transfer(recipient, amount)` against a token whose `symbol()` is "TEST"
and `decimals()` is 18 yields exactly one `tokenTransfers` entry
`{token: to-address, symbol: "TEST", from: the transaction's from,
to: recipient, amount: formatUnits(amount, 18), rawAmount: amount,
type: "ERC20"}`; and any simulated call whose data does not begin with the
ERC-20 transfer selector produces no entry. -/
theorem simulate_reports_erc20_transfer (p : Provider) (w : Wallet) (tx : Tx)
    (sender tokA data recipient : String) (amount : Nat)
    (hok : ∃ r, simulateTransactionE p w tx = .ok r)
    (hfrom : tx.from_ = some sender) (hsender : sender ≠ "")
    (hto : tx.to_ = some tokA) (htokA : tokA ≠ "")
    (hdata : tx.data = some data)
    (hdec : parseTransferData data = some (recipient, amount))
    (hsym : p.tokenSymbol tokA = .ok "TEST")
    (hdecs : p.tokenDecimals tokA = .ok 18) :
    (simulateTransaction p w tx).tokenTransfers =
      [{ token := tokA, symbol := "TEST", from_ := some sender, to_ := recipient,
         amount := formatUnits (amount : Int) 18, rawAmount := toString amount,
         ttype := "ERC20" }] ∧
    (∀ tx' r', simulateTransactionE p w tx' = .ok r' →
      (∀ d, tx'.data = some d → strStartsWith d ERC20_TRANSFER_SIGNATURE = false) →
      (simulateTransaction p w tx').tokenTransfers = []) := by
  constructor
  · obtain ⟨r, hE⟩ := hok
    obtain ⟨t, bn, i, h1, h2, h5, hr⟩ := simulateTransactionE_ok_shape p w tx r hE
    obtain ⟨pt, pd, pf⟩ := preparedTx_fields p w tx t h1
    unfold simulateTransaction
    rw [hE, hr]
    show detectTokenTransfers p t = _
    have hfrom' : t.from_ = some sender := by
      rw [pf (by simp [truthyS, hfrom, hsender]), hfrom]
    rw [← hfrom']
    exact detectTokenTransfers_erc20 p t tokA data recipient amount "TEST" 18
      (pt.trans hto) htokA (pd.trans hdata) hdec hsym hdecs
  · intro tx' r' hE' hns
    obtain ⟨t', bn', i', h1', h2', h5', hr'⟩ := simulateTransactionE_ok_shape p w tx' r' hE'
    obtain ⟨_, pd', _⟩ := preparedTx_fields p w tx' t' h1'
    unfold simulateTransaction
    rw [hE', hr']
    show detectTokenTransfers p t' = []
    apply detectTokenTransfers_no_selector
    intro d hd
    rw [pd'] at hd
    exact hns d hd

/-- Call data encoding `transfer(addrB, 500 * 10^18)`. -/
def transferDataW : String :=
  ERC20_TRANSFER_SIGNATURE ++ String.mk (List.replicate 24 '0') ++ addrB.drop 2
    ++ padZeros "1b1ae4d6e2ef500000" 64

/-- The ERC-20 transfer request of the C7 scenario. -/
def txTransferW : Tx :=
  { from_ := some addrA, to_ := some tokenAddrC, data := some transferDataW }

set_option maxRecDepth 100000 in
theorem simulate_reports_erc20_transfer_witness :
    (simulateTransaction baseProvider noWallet txTransferW).tokenTransfers =
      [{ token := tokenAddrC, symbol := "TEST", from_ := some addrA, to_ := addrB,
         amount := "500.0", rawAmount := "500000000000000000000", ttype := "ERC20" }] ∧
    (simulateTransaction baseProvider noWallet txGasOnly).tokenTransfers = [] := by
  constructor
  · exact (simulate_reports_erc20_transfer baseProvider noWallet txTransferW addrA tokenAddrC
      transferDataW addrB (500 * 10 ^ 18) ⟨_, rfl⟩ rfl (by decide) rfl (by decide) rfl
      (by decide) rfl rfl).1
  · exact (simulate_reports_erc20_transfer baseProvider noWallet txTransferW addrA tokenAddrC
      transferDataW addrB (500 * 10 ^ 18) ⟨_, rfl⟩ rfl (by decide) rfl (by decide) rfl
      (by decide) rfl rfl).2 txGasOnly _ rfl (fun d hd => by simp [txGasOnly] at hd)

/-- Under an oracle whose estimate is the constant `G`, the prepared gas
limit is the caller's truthy limit unchanged, else the buffered estimate. -/
theorem preparedTx_gasLimit (p : Provider) (w : Wallet) (tx t : Tx) (G : Nat)
    (hest : ∀ u : Tx, p.estimateGas u = .ok G)
    (h : preparedTx p w tx = .ok t) :
    (truthyN tx.gasLimit = true → t.gasLimit = tx.gasLimit) ∧
    (truthyN tx.gasLimit = false → t.gasLimit = some (G * 120 / 100)) := by
  unfold preparedTx at h
  obtain ⟨_, _, _, h4⟩ := prepareFees_fields p _ t h
  obtain ⟨_, _, _, f4⟩ := prepareFrom_fields w tx
  constructor
  · intro ht
    rw [h4]
    unfold prepareGasLimit
    rw [if_pos]
    · exact f4
    · rw [f4]; exact ht
  · intro hf
    rw [h4]
    unfold prepareGasLimit
    rw [if_neg]
    · rw [hest]
    · rw [f4, hf]; simp

/-- C4: for a valid transaction with sufficient funds and no revert
condition — modelled as: the node estimates a fixed gas requirement `G`
for the transaction, the speculative call succeeds, the node accepts a
call only when its (truthy) gas limit covers `G`, and the remaining
pipeline steps complete — `simulateTransaction` returns `success=true`
and a `gasUsed` of exactly `G`, which is bounded by the final gas limit
used (the caller's own limit if truthy, else the buffered estimate
`floor(G*120/100)`). -/
theorem simulate_success_gas_bound (p : Provider) (w : Wallet) (tx : Tx) (G : Nat)
    (hest : ∀ u : Tx, p.estimateGas u = .ok G)
    (hnode : ∀ (u : Tx) (bn : Nat), p.call u bn = .ok () →
      ∀ g, u.gasLimit = some g → G ≤ g)
    (t : Tx) (bn : Nat)
    (hprep : preparedTx p w tx = .ok t)
    (hbn : p.getBlockNumber = .ok bn)
    (hcall : p.call t bn = .ok ())
    (hcre : ∃ i, creationPhase p t = .ok i) :
    ∃ finalGasLimit, t.gasLimit = some finalGasLimit ∧
      (simulateTransaction p w tx).success = true ∧
      (simulateTransaction p w tx).gasUsed = toString G ∧
      G ≤ finalGasLimit := by
  obtain ⟨i, h5⟩ := hcre
  have hE : simulateTransactionE p w tx =
      .ok { success := (runCall p t bn).1,
            gasUsed := toString (gasUsedPhase p t (runCall p t bn).2).1,
            logs := [],
            tokenTransfers := detectTokenTransfers p t,
            contractInteractions := i,
            errorMessage := (gasUsedPhase p t (runCall p t bn).2).2,
            stateChanges := some [],
            gasCost := some (gasCostOf t (gasUsedPhase p t (runCall p t bn).2).1) } := by
    unfold simulateTransactionE
    simp only [hprep, hbn, h5]
  have hrc : runCall p t bn = (true, none) := runCall_ok p t bn hcall
  have hgu : gasUsedPhase p t none = (G, none) := by
    unfold gasUsedPhase; rw [hest]
  have hsucc : (simulateTransaction p w tx).success = true := by
    unfold simulateTransaction
    rw [hE]
    show (runCall p t bn).1 = true
    rw [hrc]
  have hguR : (simulateTransaction p w tx).gasUsed = toString G := by
    unfold simulateTransaction
    rw [hE]
    show toString (gasUsedPhase p t (runCall p t bn).2).1 = toString G
    rw [hrc]
    show toString (gasUsedPhase p t none).1 = toString G
    rw [hgu]
  obtain ⟨hg1, hg2⟩ := preparedTx_gasLimit p w tx t G hest hprep
  cases htr : truthyN tx.gasLimit with
  | true =>
    have hgl := hg1 htr
    cases hglx : tx.gasLimit with
    | none => rw [hglx] at htr; simp [truthyN] at htr
    | some g =>
      exact ⟨g, by rw [hgl, hglx], hsucc, hguR,
        hnode t bn hcall g (by rw [hgl, hglx])⟩
  | false =>
    have hgl := hg2 htr
    refine ⟨G * 120 / 100, hgl, hsucc, hguR, ?_⟩
    rw [Nat.le_div_iff_mul_le (by norm_num)]
    nlinarith

theorem simulate_success_gas_bound_witness :
    tPrepW.gasLimit = some 25200 ∧
    (simulateTransaction baseProvider noWallet txNoGas).success = true ∧
    (simulateTransaction baseProvider noWallet txNoGas).gasUsed = "21000" ∧
    (21000 : Nat) ≤ 25200 := by
  obtain ⟨fg, hfg, hs, hg, hle⟩ := simulate_success_gas_bound baseProvider noWallet txNoGas
    21000 (fun _ => rfl)
    (by
      intro u bn h g hgl
      by_cases hle : 21000 ≤ g
      · exact hle
      · exfalso
        simp only [baseProvider] at h
        rw [hgl] at h
        simp [hle] at h)
    tPrepW 1000 rfl rfl rfl ⟨[], rfl⟩
  have hfg' : (25200 : Nat) = fg := Option.some.inj hfg
  exact ⟨rfl, hs, hg, by omega⟩

/-- The per-token outcome as the loop sees it: a produced entry, or
nothing (zero net change, or a caught per-token failure). -/
def processTokenOpt (p : Provider) (address : String) (fb tb : BlockTag)
    (st : String × String) : Option ChangeEntry :=
  match processTokenE p address fb tb st.1 st.2 with
  | .ok (some e) => some e
  | .ok none => none
  | .error _ => none

/-- The per-token loop accumulates exactly the entries the per-token
outcomes produce, in registry order. -/
theorem changes_foldl_eq_filterMap (p : Provider) (address : String) (fb tb : BlockTag)
    (l : List (String × String)) (acc : List ChangeEntry) :
    l.foldl (fun acc st =>
      match processTokenE p address fb tb st.1 st.2 with
      | .ok (some e) => acc ++ [e]
      | .ok none => acc
      | .error _ => acc) acc
    = acc ++ l.filterMap (processTokenOpt p address fb tb) := by
  induction l generalizing acc with
  | nil => simp
  | cons hd tl ih =>
    simp only [List.foldl_cons, List.filterMap_cons, processTokenOpt]
    cases hpe : processTokenE p address fb tb hd.1 hd.2 with
    | error e => simp only [hpe]; rw [ih]
    | ok o =>
      cases o with
      | none => simp only [hpe]; rw [ih]
      | some e => simp only [hpe]; rw [ih]; simp

/-- For a valid address the scan always completes with a report whose
entries are the per-token outcomes over the registry. -/
theorem getTokenBalanceChanges_ok (tokenAddresses : List (String × String)) (p : Provider)
    (address : String) (ofb otb : Option Int)
    (h1 : address ≠ "") (h2 : isAddress address = true) :
    getTokenBalanceChanges tokenAddresses p address ofb otb =
      .ok { address := address, fromBlock := blockTagOf ofb, toBlock := blockTagOf otb,
            changes := tokenAddresses.filterMap
              (processTokenOpt p address (blockTagOf ofb) (blockTagOf otb)) } := by
  unfold getTokenBalanceChanges
  rw [if_neg (by simp [h1, h2])]
  dsimp only
  rw [changes_foldl_eq_filterMap]
  simp

/-- The outgoing fold subtracts the exact integer sum. -/
theorem foldl_sub_int (l : List Nat) (i : Int) :
    l.foldl (fun (acc : Int) (v : Nat) => acc - (v : Int)) i
      = i - ((l.map fun (v : Nat) => (v : Int)).sum) := by
  induction l generalizing i with
  | nil => simp
  | cons hd tl ih => simp only [List.foldl_cons, List.map_cons, List.sum_cons, ih]; ring

/-- The incoming fold adds the exact integer sum. -/
theorem foldl_add_int (l : List Nat) (i : Int) :
    l.foldl (fun (acc : Int) (v : Nat) => acc + (v : Int)) i
      = i + ((l.map fun (v : Nat) => (v : Int)).sum) := by
  induction l generalizing i with
  | nil => simp
  | cons hd tl ih => simp only [List.foldl_cons, List.map_cons, List.sum_cons, ih]; ring

/-- One token's processing, when both event queries succeed: the signed
`Int` net (incoming minus outgoing), an entry exactly when it is nonzero. -/
theorem processTokenE_char (p : Provider) (address : String) (fb tb : BlockTag)
    (symbol tokenAddress : String) (outs ins : List Nat) (net : Int) (dec : Nat)
    (hfrom : p.queryTransferFrom tokenAddress address fb tb = .ok outs)
    (hto : p.queryTransferTo tokenAddress address fb tb = .ok ins)
    (hnet : net = ((ins.map fun (v : Nat) => (v : Int)).sum
      - ((outs.map fun (v : Nat) => (v : Int)).sum)))
    (hdec : dec = match p.tokenDecimals tokenAddress with | .ok d => d | .error _ => 18) :
    processTokenE p address fb tb symbol tokenAddress =
      .ok (if net = 0 then none
        else some { token := tokenAddress, symbol := symbol, change := formatUnits net dec, changeType := if net > 0 then "increase" else "decrease", fromBlock := fb, toBlock := tb, outgoing := outs.length, incoming := ins.length }) := by
  unfold processTokenE
  simp only [hfrom, hto]
  have ht : ins.foldl (fun (acc : Int) (v : Nat) => acc + (v : Int))
      (outs.foldl (fun (acc : Int) (v : Nat) => acc - (v : Int)) 0) = net := by
    rw [foldl_add_int, foldl_sub_int, hnet]; ring
  rw [ht, ← hdec]
  by_cases hz : net = 0
  · rw [if_neg (not_not_intro hz), if_pos hz]
  · rw [if_pos hz, if_neg hz]

/-- A produced entry always names the token it was computed for. -/
theorem processTokenE_entry_token (p : Provider) (address : String) (fb tb : BlockTag)
    (symbol tokenAddress : String) (e : ChangeEntry)
    (h : processTokenE p address fb tb symbol tokenAddress = .ok (some e)) :
    e.token = tokenAddress := by
  unfold processTokenE at h
  repeat' split at h
  all_goals try dsimp only at h
  all_goals try split_ifs at h
  all_goals
    first
      | exact Except.noConfusion h
      | (simp only [Except.ok.injEq, Option.some.injEq] at h; subst h; rfl)
      | (simp only [Except.ok.injEq] at h; exact Option.noConfusion h)

/-- A produced per-token outcome comes from a successful processing. -/
theorem processTokenOpt_some (p : Provider) (address : String) (fb tb : BlockTag)
    (st : String × String) (e : ChangeEntry)
    (h : processTokenOpt p address fb tb st = some e) :
    processTokenE p address fb tb st.1 st.2 = .ok (some e) := by
  unfold processTokenOpt at h
  split at h
  · rename_i heq
    injection h with h
    subst h
    exact heq
  · exact Option.noConfusion h
  · exact Option.noConfusion h

/-- C3: for every tracked token whose event queries succeed, the scan
completes and computes the token's net change as the exact signed `Int`
sum of Transfer amounts (incoming added, outgoing subtracted, no floating
point anywhere in the embedding), and the report contains an entry for
that token if and only if this net sum is nonzero; the entry carries the
net formatted by the token's decimals. -/
theorem getTokenBalanceChanges_net_sum (tokenAddresses : List (String × String))
    (p : Provider) (address : String) (ofb otb : Option Int)
    (h1 : address ≠ "") (h2 : isAddress address = true)
    (symbol tokenAddress : String)
    (hmem : (symbol, tokenAddress) ∈ tokenAddresses)
    (outs ins : List Nat) (net : Int) (dec : Nat)
    (hfrom : p.queryTransferFrom tokenAddress address (blockTagOf ofb) (blockTagOf otb)
      = .ok outs)
    (hto : p.queryTransferTo tokenAddress address (blockTagOf ofb) (blockTagOf otb)
      = .ok ins)
    (hnet : net = ((ins.map fun (v : Nat) => (v : Int)).sum
      - ((outs.map fun (v : Nat) => (v : Int)).sum)))
    (hdec : dec = match p.tokenDecimals tokenAddress with | .ok d => d | .error _ => 18) :
    ∃ report, getTokenBalanceChanges tokenAddresses p address ofb otb = .ok report ∧
      (net ≠ 0 → ({ token := tokenAddress, symbol := symbol, change := formatUnits net dec, changeType := if net > 0 then "increase" else "decrease", fromBlock := blockTagOf ofb, toBlock := blockTagOf otb, outgoing := outs.length, incoming := ins.length } : ChangeEntry) ∈ report.changes) ∧
      ((∃ e ∈ report.changes, e.token = tokenAddress) ↔ net ≠ 0) := by
  refine ⟨_, getTokenBalanceChanges_ok tokenAddresses p address ofb otb h1 h2, ?_, ?_⟩
  · intro hz
    dsimp only
    apply List.mem_filterMap.mpr
    refine ⟨(symbol, tokenAddress), hmem, ?_⟩
    unfold processTokenOpt
    rw [processTokenE_char p address _ _ symbol tokenAddress outs ins net dec
      hfrom hto hnet hdec]
    rw [if_neg hz]
  · dsimp only
    constructor
    · rintro ⟨e, he, htok⟩
      obtain ⟨⟨s', a'⟩, hmem', hopt⟩ := List.mem_filterMap.mp he
      have hpe := processTokenOpt_some p address _ _ _ _ hopt
      have htok' : e.token = a' := processTokenE_entry_token p address _ _ s' a' e hpe
      rw [htok] at htok'
      subst htok'
      rw [processTokenE_char p address _ _ s' tokenAddress outs ins net dec
        hfrom hto hnet hdec] at hpe
      intro hz0
      rw [if_pos hz0] at hpe
      simp at hpe
    · intro hz
      refine ⟨{ token := tokenAddress, symbol := symbol, change := formatUnits net dec, changeType := if net > 0 then "increase" else "decrease", fromBlock := blockTagOf ofb, toBlock := blockTagOf otb, outgoing := outs.length, incoming := ins.length }, ?_, rfl⟩
      apply List.mem_filterMap.mpr
      refine ⟨(symbol, tokenAddress), hmem, ?_⟩
      unfold processTokenOpt
      rw [processTokenE_char p address _ _ symbol tokenAddress outs ins net dec
        hfrom hto hnet hdec]
      rw [if_neg hz]

/-- A registry entry whose event queries are made to fail. -/
def badTokenAddr : String := "0x4444444444444444444444444444444444444444"

/-- An oracle with transfer events: for any token except the bad one,
outgoing amounts [5, 7] and incoming [20]; the bad token's queries
reject. -/
def tokenScanProvider : Provider :=
  { baseProvider with
    queryTransferFrom := fun ta _ _ _ =>
      if ta = badTokenAddr then .error { message := "bad token" } else .ok [5, 7]
    queryTransferTo := fun ta _ _ _ =>
      if ta = badTokenAddr then .error { message := "bad token" } else .ok [20] }

set_option maxRecDepth 100000 in
theorem getTokenBalanceChanges_net_sum_witness :
    ∃ report, getTokenBalanceChanges [("TEST", tokenAddrC)] tokenScanProvider addrA
        (some 100) (some 200) = .ok report ∧
      ({ token := tokenAddrC, symbol := "TEST", change := "0.000000000000000008", changeType := "increase", fromBlock := BlockTag.num 100, toBlock := BlockTag.num 200, outgoing := 2, incoming := 1 } : ChangeEntry) ∈ report.changes ∧
      ((∃ e ∈ report.changes, e.token = tokenAddrC) ↔ (8 : Int) ≠ 0) := by
  obtain ⟨report, hrep, hment, hiff⟩ := getTokenBalanceChanges_net_sum [("TEST", tokenAddrC)]
    tokenScanProvider addrA (some 100) (some 200) (by decide) (by decide) "TEST" tokenAddrC
    (by simp) [5, 7] [20] 8 18 rfl rfl (by decide) rfl
  exact ⟨report, hrep, hment (by decide), hiff⟩

/-- C8: a failure while processing one token (here: its event queries
reject) only omits that token: the scan completes without throwing and
returns exactly the entries of the registry with the failing token
removed. -/
theorem per_token_failure_isolated (toks1 toks2 : List (String × String))
    (p : Provider) (address : String) (ofb otb : Option Int)
    (s a : String) (e : Err)
    (h1 : address ≠ "") (h2 : isAddress address = true)
    (hfail : processTokenE p address (blockTagOf ofb) (blockTagOf otb) s a = .error e) :
    ∃ report report',
      getTokenBalanceChanges (toks1 ++ (s, a) :: toks2) p address ofb otb = .ok report ∧
      getTokenBalanceChanges (toks1 ++ toks2) p address ofb otb = .ok report' ∧
      report.changes = report'.changes := by
  refine ⟨_, _, getTokenBalanceChanges_ok _ p address ofb otb h1 h2,
    getTokenBalanceChanges_ok _ p address ofb otb h1 h2, ?_⟩
  dsimp only
  rw [List.filterMap_append, List.filterMap_append]
  have hop : processTokenOpt p address (blockTagOf ofb) (blockTagOf otb) (s, a) = none := by
    unfold processTokenOpt
    simp only [hfail]
  simp only [List.filterMap_cons, hop]

set_option maxRecDepth 100000 in
theorem per_token_failure_isolated_witness :
    ∃ report report',
      getTokenBalanceChanges ([("TEST", tokenAddrC)] ++ ("BAD", badTokenAddr) :: [])
        tokenScanProvider addrA (some 100) (some 200) = .ok report ∧
      getTokenBalanceChanges ([("TEST", tokenAddrC)] ++ []) tokenScanProvider addrA
        (some 100) (some 200) = .ok report' ∧
      report.changes = report'.changes :=
  per_token_failure_isolated [("TEST", tokenAddrC)] [] tokenScanProvider addrA
    (some 100) (some 200) "BAD" badTokenAddr { message := "bad token" }
    (by decide) (by decide) rfl
